import Mathlib

/-!
Verification of the frontend store state machines of the math-tutoring
application (Zustand stores `answerStore` and `missionStore`, plus the API
client).  The TypeScript stores are shallowly embedded: each store is a record
type, and each async action becomes a pure step function from the current
state and the observed backend response (an `Outcome`) to the next state
together with its observable effects (network calls issued, timers scheduled,
exception propagated to the caller).  JavaScript `number` fields holding
identifiers and counts become `Nat`; wall-clock instants and scores become
`Int`; `T | null | undefined` becomes `Option T` (the data model declares
`score` to be `null` until graded).
-/

/-- Mission type enum (`MissionType` in `types/index.ts`). -/
inductive MissionType where
  | daily
  | review
  | challenge
  | assessment
deriving DecidableEq, Repr

/-- Mission status enum (`MissionStatus` in `types/index.ts`). -/
inductive MissionStatus where
  | pending
  | in_progress
  | completed
deriving DecidableEq, Repr

/-- `Problem` from `types/index.ts`. -/
structure Problem where
  id : Nat
  title : String
  content : String
  solution : Option String
  difficulty_level : Nat
  topic : String
  subtopic : Option String
  estimated_time : Option Nat
  keywords : Option (List String)
deriving DecidableEq, Repr

/-- `Mission` from `types/index.ts`. -/
structure Mission where
  id : Nat
  user_id : Nat
  name : String
  description : Option String
  status : MissionStatus
  total_problems : Nat
  completed_problems : Nat
  target_score : Option Int
  actual_score : Option Int
  start_time : Option String
  end_time : Option String
  problems : Option (List Problem)
deriving DecidableEq, Repr

/-- `MissionProgress` from `types/index.ts`. -/
structure MissionProgress where
  mission_id : Nat
  total_problems : Nat
  completed_problems : Nat
  current_problem : Option Problem
  progress_percentage : Int
  estimated_remaining_time : Option Int
deriving DecidableEq, Repr

/-- `Answer` from `types/index.ts`.  `score` is `none` until the backend
grades the submission (the data model states it is `null` until graded). -/
structure Answer where
  id : Nat
  user_id : Nat
  mission_id : Nat
  problem_id : Nat
  answer_images : List String
  extracted_text : Option String
  extracted_markdown : Option String
  score : Option Int
  ai_feedback : Option String
  key_concepts_identified : List String
  mistakes_detected : List String
  time_spent : Option Int
  submitted_at : Option String
  scored_at : Option String
deriving DecidableEq, Repr

/-- `AnswerResult` from `types/index.ts`. -/
structure AnswerResult where
  answer_id : Nat
  score : Int
  feedback : String
  concepts_learned : List String
  areas_for_improvement : List String
  next_recommendations : List String
deriving DecidableEq, Repr

/-- `AppError` from `types/index.ts` (the `details : any` field is never set
by the stores and is omitted). -/
structure AppError where
  message : String
  code : Option String
deriving DecidableEq, Repr

/-- `CapturedImage` from `types/index.ts`; the opaque `File` blob is
represented by a numeric tag, `preview` is the object URL string. -/
structure CapturedImage where
  file : Nat
  preview : String
  timestamp : Nat
deriving DecidableEq, Repr

/-- Outcome of one `apiService` request, as observed by a store action.
`envelope` is a 2xx response body `{success, message, data?}`;
`thrown` covers a network failure or a non-2xx status, both of which make
the API client throw an `Error` carrying a message. -/
inductive Outcome (α : Type) where
  | envelope (success : Bool) (message : String) (data : Option α)
  | thrown (message : String)
deriving DecidableEq, Repr

/-- JavaScript `s || fallback` on strings: the empty string is falsy. -/
def strOr (s fallback : String) : String :=
  if s = "" then fallback else s

/-- The network requests a store action can issue, with the arguments the
store passes to `apiService`. -/
inductive ApiCall where
  | getCurrentMission
  | startMission (missionType : MissionType)
  | getMissionProgress (missionId : Nat)
  | getNextProblem (missionId : Nat)
  | completeMission (missionId : Nat)
  | submitAnswer (missionId problemId imageCount : Nat) (timeSpent : Option Int)
  | getAnswerResult (answerId : Nat)
deriving DecidableEq, Repr

/-! ## Answer store (`answerStore.ts`) -/

/-- The state of `useAnswerStore`. -/
structure AnswerState where
  currentAnswer : Option Answer
  answerResult : Option AnswerResult
  capturedImages : List CapturedImage
  isSubmitting : Bool
  isProcessing : Bool
  error : Option AppError
deriving DecidableEq, Repr

/-- The initial state of `useAnswerStore`. -/
def initialAnswerState : AnswerState :=
  { currentAnswer := none
    answerResult := none
    capturedImages := []
    isSubmitting := false
    isProcessing := false
    error := none }

/-- Result of one answer-store action: the next state, the network calls it
issued, the `setTimeout` polls it scheduled as `(answerId, delayMs)` pairs,
the exception it let escape to the caller (`none` when the returned promise
resolves), and the value it returned. -/
structure AStep where
  state : AnswerState
  calls : List ApiCall
  scheduled : List (Nat × Nat)
  thrown : Option String
  retVal : Option Nat
deriving DecidableEq, Repr

/-- `addCapturedImage`: appends the image and clears the error. -/
def addCapturedImage (image : CapturedImage) (s : AnswerState) : AnswerState :=
  { s with capturedImages := s.capturedImages ++ [image], error := none }

/-- Index filter underlying `removeCapturedImage`: the source keeps exactly
the elements whose position differs from the requested index,
`capturedImages.filter((_, i) => i !== index)`, where the JavaScript index
may be any number; `n` is the position of the head of the remaining list. -/
def removeAt (index : Int) : Nat → List CapturedImage → List CapturedImage
  | _, [] => []
  | n, a :: l =>
      if (n : Int) = index then removeAt index (n + 1) l
      else a :: removeAt index (n + 1) l

/-- `removeCapturedImage`: drops the image at the given position, via the
index filter; no preview URL is revoked here. -/
def removeCapturedImage (index : Int) (s : AnswerState) : AnswerState :=
  { s with capturedImages := removeAt index 0 s.capturedImages }

/-- `clearCapturedImages`: revokes the preview object URL of every staged
image, then empties the staged list.  The second component is the list of
revoked URLs, in order. -/
def clearCapturedImages (s : AnswerState) : AnswerState × List String :=
  ({ s with capturedImages := [] }, s.capturedImages.map (fun im => im.preview))

/-- `reset` of the answer store: revokes every staged preview URL and
returns every field to its initial value. -/
def answerReset (s : AnswerState) : AnswerState × List String :=
  (initialAnswerState, s.capturedImages.map (fun im => im.preview))

/-! ### Lemmas about the index filter -/

theorem removeAt_of_lt (index : Int) :
    ∀ (l : List CapturedImage) (n : Nat), index < (n : Int) →
      removeAt index n l = l := by
  intro l
  induction l with
  | nil => intro n _; rfl
  | cons a l ih =>
      intro n h
      have hne : (n : Int) ≠ index := by omega
      simp only [removeAt, hne, if_false]
      rw [ih (n + 1) (by push_cast; omega)]

theorem removeAt_of_ge (index : Int) :
    ∀ (l : List CapturedImage) (n : Nat), ((n + l.length : Nat) : Int) ≤ index →
      removeAt index n l = l := by
  intro l
  induction l with
  | nil => intro n _; rfl
  | cons a l ih =>
      intro n h
      have hlen : ((n + (a :: l).length : Nat) : Int) = (n : Int) + l.length + 1 := by
        push_cast; simp [List.length_cons]; omega
      have hne : (n : Int) ≠ index := by
        rw [hlen] at h
        have : (0 : Int) ≤ (l.length : Int) := by positivity
        omega
      simp only [removeAt, hne, if_false]
      rw [ih (n + 1) (by push_cast at h ⊢; simp [List.length_cons] at h; omega)]

theorem removeAt_eq_eraseIdx :
    ∀ (l : List CapturedImage) (n k : Nat), k < l.length →
      removeAt ((n + k : Nat) : Int) n l = l.eraseIdx k := by
  intro l
  induction l with
  | nil => intro n k h; simp at h
  | cons a l ih =>
      intro n k h
      cases k with
      | zero =>
          have heq : (n : Int) = ((n + 0 : Nat) : Int) := by push_cast; ring
          simp only [removeAt, ← heq, if_true]
          simp only [List.eraseIdx]
          have : ((n + 0 : Nat) : Int) < ((n + 1 : Nat) : Int) := by push_cast; omega
          exact removeAt_of_lt _ l (n + 1) this
      | succ k' =>
          have hne : (n : Int) ≠ ((n + (k' + 1) : Nat) : Int) := by push_cast; omega
          simp only [removeAt, hne, if_false]
          have harg : ((n + (k' + 1) : Nat) : Int) = (((n + 1) + k' : Nat) : Int) := by
            push_cast; ring
          rw [harg, ih (n + 1) k' (by simpa [List.length_cons] using Nat.lt_of_succ_lt_succ h)]
          rfl

theorem removeAt_length_of_valid (index : Int) (l : List CapturedImage)
    (h0 : 0 ≤ index) (hlt : index.toNat < l.length) :
    (removeAt index 0 l).length + 1 = l.length := by
  have : index = ((0 + index.toNat : Nat) : Int) := by
    push_cast; omega
  rw [this, removeAt_eq_eraseIdx l 0 index.toNat hlt]
  rw [List.length_eraseIdx_of_lt hlt]
  omega

/-- Claim C10: removeCapturedImage is total and never throws for any integer
index: given a valid index (with 0 ≤ index < length of the staged list) it
removes exactly the element at that index and preserves the order of all
other staged images, and leaves every other field of the store unchanged;
given an out-of-range index it leaves the staged list unchanged.  Totality
is by construction: the embedding is a total Lean function on all of Int. -/
theorem C10_removeCapturedImage (s : AnswerState) (index : Int) :
    (0 ≤ index → index.toNat < s.capturedImages.length →
      removeCapturedImage index s =
        { s with capturedImages := s.capturedImages.eraseIdx index.toNat })
    ∧ (index < 0 → removeCapturedImage index s = s)
    ∧ ((s.capturedImages.length : Int) ≤ index → removeCapturedImage index s = s) := by
  refine ⟨?_, ?_, ?_⟩
  · intro h0 hlt
    have h : index = ((0 + index.toNat : Nat) : Int) := by push_cast; omega
    unfold removeCapturedImage
    conv_lhs => rw [h]
    rw [removeAt_eq_eraseIdx s.capturedImages 0 index.toNat hlt]
  · intro hneg
    unfold removeCapturedImage
    rw [removeAt_of_lt index s.capturedImages 0 (by exact_mod_cast hneg)]
  · intro hge
    unfold removeCapturedImage
    rw [removeAt_of_ge index s.capturedImages 0 (by push_cast; omega)]

/-- Witness for C10 at concrete inputs: a two-image list with a valid
index 0, a negative index and a too-large index. -/
theorem C10_removeCapturedImage_witness :
    (removeCapturedImage 0
        { initialAnswerState with
            capturedImages := [⟨1, "blob:a", 10⟩, ⟨2, "blob:b", 20⟩] } =
      { initialAnswerState with capturedImages := [⟨2, "blob:b", 20⟩] })
    ∧ (removeCapturedImage (-1)
        { initialAnswerState with capturedImages := [⟨1, "blob:a", 10⟩] } =
      { initialAnswerState with capturedImages := [⟨1, "blob:a", 10⟩] })
    ∧ (removeCapturedImage 5
        { initialAnswerState with capturedImages := [⟨1, "blob:a", 10⟩] } =
      { initialAnswerState with capturedImages := [⟨1, "blob:a", 10⟩] }) := by
  refine ⟨?_, ?_, ?_⟩
  · have h := (C10_removeCapturedImage
      { initialAnswerState with
          capturedImages := [⟨1, "blob:a", 10⟩, ⟨2, "blob:b", 20⟩] } 0).1
      (by decide) (by decide)
    simpa using h
  · exact (C10_removeCapturedImage
      { initialAnswerState with capturedImages := [⟨1, "blob:a", 10⟩] } (-1)).2.1
      (by decide)
  · exact (C10_removeCapturedImage
      { initialAnswerState with capturedImages := [⟨1, "blob:a", 10⟩] } 5).2.2
      (by decide)

/-! ### Image-operation traces (claim C2) -/

/-- One staged-image operation of the answer store. -/
inductive ImgOp where
  | add (image : CapturedImage)
  | remove (index : Int)
  | clear
  | reset
deriving DecidableEq, Repr

/-- Apply one image operation; the second component is the list of preview
object URLs revoked by that operation. -/
def applyImgOp : ImgOp → AnswerState → AnswerState × List String
  | .add image, s => (addCapturedImage image s, [])
  | .remove index, s => (removeCapturedImage index s, [])
  | .clear, s => clearCapturedImages s
  | .reset, s => answerReset s

/-- Run a sequence of image operations, accumulating the revoked URL log. -/
def runImgOps : List ImgOp → AnswerState → AnswerState × List String
  | [], s => (s, [])
  | op :: ops, s =>
      let r := applyImgOp op s
      let r2 := runImgOps ops r.1
      (r2.1, r.2 ++ r2.2)

/-- Number of `add` operations in a sequence. -/
def countAdds : List ImgOp → Nat
  | [] => 0
  | .add _ :: ops => countAdds ops + 1
  | _ :: ops => countAdds ops

/-- Number of `remove` operations in a sequence. -/
def countRemoves : List ImgOp → Nat
  | [] => 0
  | .remove _ :: ops => countRemoves ops + 1
  | _ :: ops => countRemoves ops

/-- An operation is an add or a remove (a capture-phase operation). -/
def isAddRemove : ImgOp → Bool
  | .add _ => true
  | .remove _ => true
  | _ => false

/-- Every `remove` in the sequence targets an index that is in range at the
moment it executes. -/
def validRun : AnswerState → List ImgOp → Bool
  | _, [] => true
  | s, op :: ops =>
      (match op with
       | .remove index =>
           decide (0 ≤ index) && decide (index < (s.capturedImages.length : Int))
       | _ => true) && validRun (applyImgOp op s).1 ops

theorem validRemove_length (s : AnswerState) (index : Int)
    (h0 : 0 ≤ index) (hlt : index < (s.capturedImages.length : Int)) :
    (removeCapturedImage index s).capturedImages.length + 1 =
      s.capturedImages.length := by
  have hlt2 : index.toNat < s.capturedImages.length := by omega
  have := removeAt_length_of_valid index s.capturedImages h0 hlt2
  simpa [removeCapturedImage] using this

/-- Claim C2, amended: over sequences of `addCapturedImage` and
`removeCapturedImage` in which every removal index is in range when it
executes, the staged count equals additions minus removals (an out-of-range
removal leaves the list unchanged, so the unrestricted count law fails);
`removeCapturedImage` releases no preview object URL at all, while
`clearCapturedImages` and `reset` each release the preview URL of every
image staged at that moment exactly once (the revocation log of either call
is exactly the staged preview list) and then empty the staged list. -/
theorem C2_capturedImage_accounting :
    (∀ (s : AnswerState) (ops : List ImgOp),
        (∀ op ∈ ops, isAddRemove op = true) → validRun s ops = true →
        (runImgOps ops s).1.capturedImages.length + countRemoves ops =
          s.capturedImages.length + countAdds ops)
    ∧ (∀ (s : AnswerState) (index : Int), (applyImgOp (.remove index) s).2 = [])
    ∧ (∀ s : AnswerState,
        (applyImgOp .clear s).2 = s.capturedImages.map (fun im => im.preview)
        ∧ (applyImgOp .clear s).1.capturedImages = [])
    ∧ (∀ s : AnswerState,
        (applyImgOp .reset s).2 = s.capturedImages.map (fun im => im.preview)
        ∧ (applyImgOp .reset s).1.capturedImages = []) := by
  refine ⟨?_, fun s index => rfl, fun s => ⟨rfl, rfl⟩, fun s => ⟨rfl, rfl⟩⟩
  intro s ops
  induction ops generalizing s with
  | nil => intro _ _; simp [runImgOps, countAdds, countRemoves]
  | cons op ops ih =>
      intro hall hvalid
      cases op with
      | add image =>
          have hall' : ∀ op ∈ ops, isAddRemove op = true := by
            intro o ho; exact hall o (List.mem_cons_of_mem _ ho)
          have hvalid' : validRun (applyImgOp (.add image) s).1 ops = true := by
            simpa [validRun] using hvalid
          have := ih (applyImgOp (.add image) s).1 hall' hvalid'
          simp only [runImgOps, countAdds, countRemoves]
          simp only [applyImgOp, addCapturedImage] at this ⊢
          simp [List.length_append] at this ⊢
          omega
      | remove index =>
          simp only [validRun, Bool.and_eq_true, decide_eq_true_eq] at hvalid
          obtain ⟨⟨h0, hlt⟩, hvalid'⟩ := hvalid
          have hall' : ∀ op ∈ ops, isAddRemove op = true := by
            intro o ho; exact hall o (List.mem_cons_of_mem _ ho)
          have hlen := validRemove_length s index h0 hlt
          have := ih (applyImgOp (.remove index) s).1 hall' hvalid'
          simp only [runImgOps, countAdds, countRemoves]
          simp only [applyImgOp] at this ⊢
          omega
      | clear =>
          have := hall .clear (List.mem_cons_self _ _)
          simp [isAddRemove] at this
      | reset =>
          have := hall .reset (List.mem_cons_self _ _)
          simp [isAddRemove] at this

/-- Counterexample to claim C2 as stated: removing the only staged image by
index releases no preview URL (the revocation log stays empty although the
image was removed), and an out-of-range removal leaves the staged count at
1 although additions minus removals is 0. -/
theorem C2_capturedImage_counterexample :
    ((runImgOps [ImgOp.add ⟨1, "blob:a", 0⟩, ImgOp.remove 0]
        initialAnswerState).2 = [])
    ∧ countAdds [ImgOp.add ⟨1, "blob:a", 0⟩, ImgOp.remove 5] = 1
    ∧ countRemoves [ImgOp.add ⟨1, "blob:a", 0⟩, ImgOp.remove 5] = 1
    ∧ (runImgOps [ImgOp.add ⟨1, "blob:a", 0⟩, ImgOp.remove 5]
        initialAnswerState).1.capturedImages = [⟨1, "blob:a", 0⟩] :=
  ⟨rfl, rfl, rfl, rfl⟩

/-- Witness for the amended C2 theorem at concrete inputs: two adds followed
by two valid removals balance out, and clearing a one-image store revokes
exactly that preview. -/
theorem C2_capturedImage_witness :
    ((runImgOps
        [ImgOp.add ⟨1, "blob:a", 0⟩, ImgOp.add ⟨2, "blob:b", 0⟩,
         ImgOp.remove 1, ImgOp.remove 0]
        initialAnswerState).1.capturedImages.length +
      countRemoves
        [ImgOp.add ⟨1, "blob:a", 0⟩, ImgOp.add ⟨2, "blob:b", 0⟩,
         ImgOp.remove 1, ImgOp.remove 0] =
      initialAnswerState.capturedImages.length +
      countAdds
        [ImgOp.add ⟨1, "blob:a", 0⟩, ImgOp.add ⟨2, "blob:b", 0⟩,
         ImgOp.remove 1, ImgOp.remove 0])
    ∧ (applyImgOp .clear
        { initialAnswerState with capturedImages := [⟨1, "blob:a", 0⟩] }).2 =
      [⟨1, "blob:a", 0⟩].map (fun im => CapturedImage.preview im) := by
  refine ⟨C2_capturedImage_accounting.1 initialAnswerState _ (by decide) (by decide), ?_⟩
  exact (C2_capturedImage_accounting.2.2.1
    { initialAnswerState with capturedImages := [⟨1, "blob:a", 0⟩] }).1

/-! ### getAnswerResult and the grading poll loop (claim C1) -/

/-- Payload of a successful answer-result fetch: `{result, answer,
problem_info}` (the store only destructures `result` and `answer`). -/
structure AnswerFetchData where
  result : AnswerResult
  answer : Answer
  problem_title : String
  problem_topic : String
deriving DecidableEq, Repr

/-- One execution of `getAnswerResult(answerId)` against an observed
response.  The store first clears the error, issues the fetch; on a success
envelope with data it stores the answer and result and leaves processing
mode, then, when the score is still null, re-enters processing mode and
schedules another fetch of the same answer after 5000 ms; on a failure
envelope or a thrown request it records the error, leaves processing mode
and rejects. -/
def getAnswerResultStep (answerId : Nat) (resp : Outcome AnswerFetchData)
    (s : AnswerState) : AStep :=
  let s0 := { s with error := none }
  match resp with
  | .envelope true _ (some d) =>
      let s1 := { s0 with currentAnswer := some d.answer,
                          answerResult := some d.result,
                          isProcessing := false }
      if d.answer.score = none then
        { state := { s1 with isProcessing := true },
          calls := [.getAnswerResult answerId],
          scheduled := [(answerId, 5000)], thrown := none, retVal := none }
      else
        { state := s1, calls := [.getAnswerResult answerId],
          scheduled := [], thrown := none, retVal := none }
  | .envelope _ message _ =>
      let m := strOr message "답안 결과 조회에 실패했습니다."
      { state := { s0 with error := some ⟨m, none⟩, isProcessing := false },
        calls := [.getAnswerResult answerId],
        scheduled := [], thrown := some m, retVal := none }
  | .thrown message =>
      { state := { s0 with error := some ⟨message, none⟩, isProcessing := false },
        calls := [.getAnswerResult answerId],
        scheduled := [], thrown := some message, retVal := none }

/-- The response is a success envelope whose answer has no score yet. -/
def isScorelessOk : Outcome AnswerFetchData → Bool
  | .envelope true _ (some d) => d.answer.score.isNone
  | _ => false

/-- The response is a success envelope whose answer carries a score. -/
def isScoredOk : Outcome AnswerFetchData → Bool
  | .envelope true _ (some d) => d.answer.score.isSome
  | _ => false

/-- Run the self-rescheduling poll loop of `getAnswerResult`: execute the
fetch against the first response; while the step leaves a scheduled poll and
a further response is available, the poll fires and consumes it.  Calls are
accumulated; the remaining output is that of the last executed step. -/
def pollRun (answerId : Nat) : List (Outcome AnswerFetchData) → AnswerState → AStep
  | [], s => { state := s, calls := [], scheduled := [], thrown := none, retVal := none }
  | [r], s => getAnswerResultStep answerId r s
  | r :: r2 :: rest, s =>
      let out := getAnswerResultStep answerId r s
      if out.scheduled = [] then out
      else
        let out2 := pollRun answerId (r2 :: rest) out.state
        { out2 with calls := out.calls ++ out2.calls }

theorem step_of_scoreless (answerId : Nat) (r : Outcome AnswerFetchData)
    (s : AnswerState) (h : isScorelessOk r = true) :
    (getAnswerResultStep answerId r s).scheduled = [(answerId, 5000)]
    ∧ (getAnswerResultStep answerId r s).state.isProcessing = true
    ∧ (getAnswerResultStep answerId r s).calls = [.getAnswerResult answerId]
    ∧ (getAnswerResultStep answerId r s).thrown = none := by
  cases r with
  | envelope success message data =>
      cases success with
      | false => simp [isScorelessOk] at h
      | true =>
          cases data with
          | none => simp [isScorelessOk] at h
          | some d =>
              simp only [isScorelessOk, Option.isNone_iff_eq_none] at h
              simp [getAnswerResultStep, h]
  | thrown m => simp [isScorelessOk] at h

theorem step_of_scored (answerId : Nat) (r : Outcome AnswerFetchData)
    (s : AnswerState) (h : isScoredOk r = true) :
    (getAnswerResultStep answerId r s).scheduled = []
    ∧ (getAnswerResultStep answerId r s).state.isProcessing = false
    ∧ (getAnswerResultStep answerId r s).thrown = none := by
  cases r with
  | envelope success message data =>
      cases success with
      | false => simp [isScoredOk] at h
      | true =>
          cases data with
          | none => simp [isScoredOk] at h
          | some d =>
              have h2 : ¬ d.answer.score = none := by
                simp only [isScoredOk] at h
                simpa [Option.isSome_iff_ne_none] using h
              simp [getAnswerResultStep, h2]
  | thrown m => simp [isScoredOk] at h

theorem step_of_thrown (answerId : Nat) (message : String) (s : AnswerState) :
    (getAnswerResultStep answerId (.thrown message) s).scheduled = []
    ∧ (getAnswerResultStep answerId (.thrown message) s).state.isProcessing = false
    ∧ (getAnswerResultStep answerId (.thrown message) s).state.error = some ⟨message, none⟩
    ∧ (getAnswerResultStep answerId (.thrown message) s).thrown = some message := by
  simp [getAnswerResultStep]

theorem pollRun_append_last (answerId : Nat) (t : Outcome AnswerFetchData) :
    ∀ (resps : List (Outcome AnswerFetchData)) (s : AnswerState),
      (∀ r ∈ resps, isScorelessOk r = true) →
      ∃ s2,
        (pollRun answerId (resps ++ [t]) s).state =
          (getAnswerResultStep answerId t s2).state
        ∧ (pollRun answerId (resps ++ [t]) s).scheduled =
          (getAnswerResultStep answerId t s2).scheduled
        ∧ (pollRun answerId (resps ++ [t]) s).thrown =
          (getAnswerResultStep answerId t s2).thrown := by
  intro resps
  induction resps with
  | nil =>
      intro s _
      exact ⟨s, rfl, rfl, rfl⟩
  | cons r rest ih =>
      intro s hall
      have hr := step_of_scoreless answerId r s (hall r (List.mem_cons_self _ _))
      have hne : ¬ (getAnswerResultStep answerId r s).scheduled = [] := by
        rw [hr.1]; simp
      have hall' : ∀ x ∈ rest, isScorelessOk x = true := by
        intro x hx; exact hall x (List.mem_cons_of_mem _ hx)
      obtain ⟨s2, h1, h2, h3⟩ := ih (getAnswerResultStep answerId r s).state hall'
      cases hsplit : rest ++ [t] with
      | nil => simp at hsplit
      | cons r2 rest2 =>
          refine ⟨s2, ?_, ?_, ?_⟩ <;>
            · simp only [List.cons_append, hsplit, pollRun, hne, if_false]
              rw [← hsplit] at *
              first
                | exact h1
                | exact h2
                | exact h3

/-- Claim C1: the grading poll.  Given any run of responses whose answers
all still lack a score, every fetch re-enters processing mode and schedules
another fetch of the same answer after a fixed 5000 ms delay, and one
network fetch of that same answer is issued per response, for arbitrarily
long runs; as soon as a response carries a non-null score the run stops:
processing mode is left and no further poll is scheduled; a fetch that
throws likewise stops the run, records the error and schedules nothing. -/
theorem C1_polling (answerId : Nat) :
    (∀ (s : AnswerState) (resps : List (Outcome AnswerFetchData)),
        resps ≠ [] → (∀ r ∈ resps, isScorelessOk r = true) →
        (pollRun answerId resps s).state.isProcessing = true
        ∧ (pollRun answerId resps s).scheduled = [(answerId, 5000)]
        ∧ (pollRun answerId resps s).calls =
            resps.map (fun _ => ApiCall.getAnswerResult answerId))
    ∧ (∀ (s : AnswerState) (resps : List (Outcome AnswerFetchData))
          (g : Outcome AnswerFetchData),
        (∀ r ∈ resps, isScorelessOk r = true) → isScoredOk g = true →
        (pollRun answerId (resps ++ [g]) s).scheduled = []
        ∧ (pollRun answerId (resps ++ [g]) s).state.isProcessing = false
        ∧ (pollRun answerId (resps ++ [g]) s).thrown = none)
    ∧ (∀ (s : AnswerState) (resps : List (Outcome AnswerFetchData))
          (message : String),
        (∀ r ∈ resps, isScorelessOk r = true) →
        (pollRun answerId (resps ++ [Outcome.thrown message]) s).scheduled = []
        ∧ (pollRun answerId (resps ++ [Outcome.thrown message]) s).state.isProcessing = false
        ∧ (pollRun answerId (resps ++ [Outcome.thrown message]) s).state.error =
            some ⟨message, none⟩) := by
  refine ⟨?_, ?_, ?_⟩
  · intro s resps
    induction resps generalizing s with
    | nil => intro h _; exact absurd rfl h
    | cons r rest ih =>
        intro _ hall
        have hr := step_of_scoreless answerId r s (hall r (List.mem_cons_self _ _))
        have hall' : ∀ x ∈ rest, isScorelessOk x = true := by
          intro x hx; exact hall x (List.mem_cons_of_mem _ hx)
        cases rest with
        | nil =>
            simp only [pollRun]
            exact ⟨hr.2.1, hr.1, by rw [hr.2.2.1]; rfl⟩
        | cons r2 rest2 =>
            have hne : ¬ (getAnswerResultStep answerId r s).scheduled = [] := by
              rw [hr.1]; simp
            have IH := ih (getAnswerResultStep answerId r s).state
              (by simp) hall'
            simp only [pollRun, hne, if_false]
            refine ⟨IH.1, IH.2.1, ?_⟩
            rw [hr.2.2.1, IH.2.2]
            rfl
  · intro s resps g hall hg
    obtain ⟨s2, h1, h2, h3⟩ := pollRun_append_last answerId g resps s hall
    have hs := step_of_scored answerId g s2 hg
    exact ⟨h2.trans hs.1, by rw [h1]; exact hs.2.1, h3.trans hs.2.2⟩
  · intro s resps message hall
    obtain ⟨s2, h1, h2, h3⟩ :=
      pollRun_append_last answerId (Outcome.thrown message) resps s hall
    have hs := step_of_thrown answerId message s2
    exact ⟨h2.trans hs.1, by rw [h1]; exact hs.2.1, by rw [h1]; exact hs.2.2.1⟩

/-- A concrete still-ungraded answer used by the C1 witness. -/
def ansNoScore : Answer :=
  ⟨7, 1, 2, 3, ["img1.png"], none, none, none, none, [], [], none, none, none⟩

/-- The same answer once graded. -/
def ansScored : Answer :=
  { ansNoScore with score := some 85, scored_at := some "2026-01-01" }

/-- A concrete answer result used by the C1 witness. -/
def resOK : AnswerResult := ⟨7, 85, "feedback", [], [], []⟩

/-- A success response whose answer still has no score. -/
def respPending : Outcome AnswerFetchData :=
  .envelope true "ok" (some ⟨resOK, ansNoScore, "title", "topic"⟩)

/-- A success response whose answer has been scored. -/
def respScored : Outcome AnswerFetchData :=
  .envelope true "ok" (some ⟨resOK, ansScored, "title", "topic"⟩)

/-- Witness for C1 at concrete inputs: two score-less fetches keep polling
answer 7 every 5000 ms; a scored fetch after a score-less one stops the
polling; a thrown fetch records the error. -/
theorem C1_polling_witness :
    ((pollRun 7 [respPending, respPending] initialAnswerState).state.isProcessing = true
      ∧ (pollRun 7 [respPending, respPending] initialAnswerState).scheduled = [(7, 5000)]
      ∧ (pollRun 7 [respPending, respPending] initialAnswerState).calls =
          [ApiCall.getAnswerResult 7, ApiCall.getAnswerResult 7])
    ∧ ((pollRun 7 ([respPending] ++ [respScored]) initialAnswerState).scheduled = []
      ∧ (pollRun 7 ([respPending] ++ [respScored]) initialAnswerState).state.isProcessing = false)
    ∧ (pollRun 7 ([respPending] ++ [Outcome.thrown "network down"])
        initialAnswerState).state.error = some ⟨"network down", none⟩ := by
  have h := C1_polling 7
  have h1 := h.1 initialAnswerState [respPending, respPending]
    (by decide) (by decide)
  have h2 := h.2.1 initialAnswerState [respPending] respScored
    (by decide) (by decide)
  have h3 := h.2.2 initialAnswerState [respPending] "network down" (by decide)
  exact ⟨⟨h1.1, h1.2.1, h1.2.2⟩, ⟨h2.1, h2.2.1⟩, h3.2.2⟩

/-! ### submitAnswer (claims C3 and C4) -/

/-- Payload of a successful submit response. -/
structure SubmitData where
  answer_id : Nat
  status : String
  image_count : Nat
deriving DecidableEq, Repr

/-- One execution of `submitAnswer(missionId, problemId, timeSpent?)`
against an observed response.  With zero staged images the store records the
fixed validation error and rejects before any request; otherwise it enters
submitting mode, uploads the staged image files, and on a success envelope
with data resolves with the new answer id (leaving the staged images
intact); on a failure envelope or a thrown request it records the error and
rejects. -/
def submitAnswerStep (missionId problemId : Nat) (timeSpent : Option Int)
    (resp : Outcome SubmitData) (s : AnswerState) : AStep :=
  if s.capturedImages.length = 0 then
    { state := { s with error := some ⟨"답안 이미지가 필요합니다.", none⟩ },
      calls := [], scheduled := [],
      thrown := some "답안 이미지가 필요합니다.", retVal := none }
  else
    let s1 := { s with isSubmitting := true, error := none }
    let call := ApiCall.submitAnswer missionId problemId
      s.capturedImages.length timeSpent
    match resp with
    | .envelope true _ (some d) =>
        { state := { s1 with isSubmitting := false },
          calls := [call], scheduled := [], thrown := none,
          retVal := some d.answer_id }
    | .envelope _ message _ =>
        let m := strOr message "답안 제출에 실패했습니다."
        { state := { s1 with isSubmitting := false, error := some ⟨m, none⟩ },
          calls := [call], scheduled := [], thrown := some m, retVal := none }
    | .thrown message =>
        { state := { s1 with isSubmitting := false, error := some ⟨message, none⟩ },
          calls := [call], scheduled := [], thrown := some message, retVal := none }

/-- Claim C3: for every mission id, problem id, optional time spent and any
would-be backend response, a submit with an empty staged-image list issues
no network call, records the fixed validation error message, rejects with
that same message, and returns no answer id — the validation happens
entirely client-side. -/
theorem C3_submitAnswer_validation (missionId problemId : Nat)
    (timeSpent : Option Int) (resp : Outcome SubmitData) (s : AnswerState)
    (h : s.capturedImages = []) :
    (submitAnswerStep missionId problemId timeSpent resp s).calls = []
    ∧ (submitAnswerStep missionId problemId timeSpent resp s).state.error =
        some ⟨"답안 이미지가 필요합니다.", none⟩
    ∧ (submitAnswerStep missionId problemId timeSpent resp s).thrown =
        some "답안 이미지가 필요합니다."
    ∧ (submitAnswerStep missionId problemId timeSpent resp s).retVal = none := by
  have hlen : s.capturedImages.length = 0 := by rw [h]; rfl
  simp [submitAnswerStep, hlen]

/-- Witness for C3 at concrete inputs. -/
theorem C3_submitAnswer_validation_witness :
    (submitAnswerStep 1 2 (some 30)
        (Outcome.envelope true "ok" (some ⟨42, "submitted", 1⟩))
        initialAnswerState).calls = []
    ∧ (submitAnswerStep 1 2 (some 30)
        (Outcome.envelope true "ok" (some ⟨42, "submitted", 1⟩))
        initialAnswerState).state.error =
        some ⟨"답안 이미지가 필요합니다.", none⟩ := by
  have h := C3_submitAnswer_validation 1 2 (some 30)
    (Outcome.envelope true "ok" (some ⟨42, "submitted", 1⟩))
    initialAnswerState rfl
  exact ⟨h.1, h.2.1⟩

/-- Counterexample to claim C4 as stated: with one staged image and a prior
submit still pending (`isSubmitting = true`), a second `submitAnswer` call
is neither rejected nor queued — it issues its own network submission and
resolves with a second answer id. -/
theorem C4_counterexample :
    (submitAnswerStep 1 2 none
        (Outcome.envelope true "ok" (some ⟨42, "submitted", 1⟩))
        { initialAnswerState with
            capturedImages := [⟨1, "blob:a", 0⟩], isSubmitting := true }).calls =
      [ApiCall.submitAnswer 1 2 1 none]
    ∧ (submitAnswerStep 1 2 none
        (Outcome.envelope true "ok" (some ⟨42, "submitted", 1⟩))
        { initialAnswerState with
            capturedImages := [⟨1, "blob:a", 0⟩], isSubmitting := true }).thrown =
      none
    ∧ (submitAnswerStep 1 2 none
        (Outcome.envelope true "ok" (some ⟨42, "submitted", 1⟩))
        { initialAnswerState with
            capturedImages := [⟨1, "blob:a", 0⟩], isSubmitting := true }).retVal =
      some 42 :=
  ⟨rfl, rfl, rfl⟩

/-- Claim C4, amended: `submitAnswer` performs no in-flight guard at all.
With staged images its entire observable behaviour is independent of
`isSubmitting` — a call made while a prior submit is pending proceeds
exactly like one made while idle and issues its own network submission, so
two concurrent in-flight submissions for the same problem attempt are
possible; the empty-list validation path issues no call either way. -/
theorem C4_no_inflight_guard :
    (∀ (missionId problemId : Nat) (timeSpent : Option Int)
        (resp : Outcome SubmitData) (s : AnswerState) (b1 b2 : Bool),
        s.capturedImages ≠ [] →
        submitAnswerStep missionId problemId timeSpent resp
          { s with isSubmitting := b1 } =
        submitAnswerStep missionId problemId timeSpent resp
          { s with isSubmitting := b2 })
    ∧ (∀ (missionId problemId : Nat) (timeSpent : Option Int)
        (resp : Outcome SubmitData) (s : AnswerState),
        s.capturedImages ≠ [] →
        (submitAnswerStep missionId problemId timeSpent resp s).calls =
          [ApiCall.submitAnswer missionId problemId
            s.capturedImages.length timeSpent]) := by
  constructor
  · intro missionId problemId timeSpent resp s b1 b2 h
    have hlen : ¬ s.capturedImages.length = 0 := by
      simpa [List.length_eq_zero] using h
    cases resp with
    | envelope success message data =>
        cases success <;> cases data <;> simp [submitAnswerStep, hlen]
    | thrown message => simp [submitAnswerStep, hlen]
  · intro missionId problemId timeSpent resp s h
    have hlen : ¬ s.capturedImages.length = 0 := by
      simpa [List.length_eq_zero] using h
    cases resp with
    | envelope success message data =>
        cases success <;> cases data <;> simp [submitAnswerStep, hlen]
    | thrown message => simp [submitAnswerStep, hlen]

/-- Witness for the amended C4 theorem at concrete inputs. -/
theorem C4_no_inflight_guard_witness :
    (submitAnswerStep 1 2 none
        (Outcome.envelope true "ok" (some ⟨42, "submitted", 1⟩))
        { initialAnswerState with
            capturedImages := [⟨1, "blob:a", 0⟩], isSubmitting := true } =
      submitAnswerStep 1 2 none
        (Outcome.envelope true "ok" (some ⟨42, "submitted", 1⟩))
        { initialAnswerState with
            capturedImages := [⟨1, "blob:a", 0⟩], isSubmitting := false })
    ∧ (submitAnswerStep 1 2 none
        (Outcome.envelope true "ok" (some ⟨42, "submitted", 1⟩))
        { initialAnswerState with
            capturedImages := [⟨1, "blob:a", 0⟩], isSubmitting := true }).calls =
      [ApiCall.submitAnswer 1 2 1 none] := by
  constructor
  · exact C4_no_inflight_guard.1 1 2 none
      (Outcome.envelope true "ok" (some ⟨42, "submitted", 1⟩))
      { initialAnswerState with capturedImages := [⟨1, "blob:a", 0⟩] }
      true false (by decide)
  · exact C4_no_inflight_guard.2 1 2 none
      (Outcome.envelope true "ok" (some ⟨42, "submitted", 1⟩))
      { initialAnswerState with
          capturedImages := [⟨1, "blob:a", 0⟩], isSubmitting := true }
      (by decide)

/-! ## Mission store (`missionStore.ts`) -/

/-- The state of `useMissionStore`.  `timeSpent` is accumulated whole
seconds; `startTime` is the recorded wall-clock start instant in
milliseconds, `none` when the timer is not running. -/
structure MissionState where
  currentMission : Option Mission
  currentProblem : Option Problem
  missionProgress : Option MissionProgress
  isLoading : Bool
  error : Option AppError
  timeSpent : Int
  startTime : Option Int
deriving DecidableEq, Repr

/-- The initial state of `useMissionStore`. -/
def initialMissionState : MissionState :=
  { currentMission := none
    currentProblem := none
    missionProgress := none
    isLoading := false
    error := none
    timeSpent := 0
    startTime := none }

/-- Result of one mission-store action: the next state, the network calls it
issued (in order), and the exception it let escape to the caller. -/
structure MStep where
  state : MissionState
  calls : List ApiCall
  thrown : Option String
deriving DecidableEq, Repr

/-- Payload of a successful current-mission fetch. -/
structure CurrentMissionData where
  mission : Mission
  current_problem : Problem
  progress : MissionProgress
deriving DecidableEq, Repr

/-- One execution of `fetchCurrentMission()` against an observed response.
The store enters loading mode and clears the error, issues the fetch; on a
success envelope with data it adopts mission, current problem and progress;
on any other envelope (no active mission) it clears all three without an
error; on a thrown request it records the error and leaves the mission
fields untouched. -/
def fetchCurrentMissionStep (resp : Outcome CurrentMissionData)
    (s : MissionState) : MStep :=
  let s0 := { s with isLoading := true, error := none }
  match resp with
  | .envelope true _ (some d) =>
      { state := { s0 with currentMission := some d.mission,
                           currentProblem := some d.current_problem,
                           missionProgress := some d.progress,
                           isLoading := false },
        calls := [.getCurrentMission], thrown := none }
  | .envelope _ _ _ =>
      { state := { s0 with currentMission := none,
                           currentProblem := none,
                           missionProgress := none,
                           isLoading := false },
        calls := [.getCurrentMission], thrown := none }
  | .thrown message =>
      { state := { s0 with isLoading := false, error := some ⟨message, none⟩ },
        calls := [.getCurrentMission], thrown := some message }

/-- Payload of a successful mission-creation response. -/
structure StartMissionData where
  mission : Mission
  first_problem : Problem
deriving DecidableEq, Repr

/-- One execution of `startNewMission(missionType)` against an observed
response.  On a success envelope with data the store synthesizes the
initial progress snapshot locally from the creation response — the returned
mission id and problem counts, the first problem as current problem and a
progress percentage of 0 — and adopts mission, problem and snapshot; on a
failure envelope or a thrown request it records the error and rejects. -/
def startNewMissionStep (missionType : MissionType)
    (resp : Outcome StartMissionData) (s : MissionState) : MStep :=
  let s0 := { s with isLoading := true, error := none }
  match resp with
  | .envelope true _ (some d) =>
      let progress : MissionProgress :=
        { mission_id := d.mission.id
          total_problems := d.mission.total_problems
          completed_problems := d.mission.completed_problems
          current_problem := some d.first_problem
          progress_percentage := 0
          estimated_remaining_time := none }
      { state := { s0 with currentMission := some d.mission,
                           currentProblem := some d.first_problem,
                           missionProgress := some progress,
                           isLoading := false },
        calls := [.startMission missionType], thrown := none }
  | .envelope _ message _ =>
      let m := strOr message "미션 시작에 실패했습니다."
      { state := { s0 with isLoading := false, error := some ⟨m, none⟩ },
        calls := [.startMission missionType], thrown := some m }
  | .thrown message =>
      { state := { s0 with isLoading := false, error := some ⟨message, none⟩ },
        calls := [.startMission missionType], thrown := some message }

/-- One execution of `getCurrentProblem()` against an observed response.
Without a current mission it returns at once, touching nothing and calling
nothing.  Otherwise it fetches the next problem: on a success envelope with
data it adopts it; on any other envelope it clears the current problem (all
problems done); a thrown request is logged and recorded as an error but not
re-thrown. -/
def getCurrentProblemStep (resp : Outcome Problem) (s : MissionState) : MStep :=
  match s.currentMission with
  | none => { state := s, calls := [], thrown := none }
  | some mission =>
      match resp with
      | .envelope true _ (some p) =>
          { state := { s with currentProblem := some p },
            calls := [.getNextProblem mission.id], thrown := none }
      | .envelope _ _ _ =>
          { state := { s with currentProblem := none },
            calls := [.getNextProblem mission.id], thrown := none }
      | .thrown message =>
          { state := { s with error := some ⟨message, none⟩ },
            calls := [.getNextProblem mission.id], thrown := none }

/-- One execution of `updateProgress()` against an observed response.
Without a current mission it returns at once.  Otherwise it re-fetches the
progress snapshot: on a success envelope with data it adopts the snapshot
and adopts its current problem (clearing the problem when the snapshot
carries none); any other envelope changes nothing; a thrown request is only
logged — no state change, no error, no rejection. -/
def updateProgressStep (resp : Outcome MissionProgress) (s : MissionState) : MStep :=
  match s.currentMission with
  | none => { state := s, calls := [], thrown := none }
  | some mission =>
      match resp with
      | .envelope true _ (some d) =>
          let s1 := { s with missionProgress := some d }
          let s2 :=
            match d.current_problem with
            | some p => { s1 with currentProblem := some p }
            | none => { s1 with currentProblem := none }
          { state := s2, calls := [.getMissionProgress mission.id], thrown := none }
      | .envelope _ _ _ =>
          { state := s, calls := [.getMissionProgress mission.id], thrown := none }
      | .thrown _ =>
          { state := s, calls := [.getMissionProgress mission.id], thrown := none }

/-- Payload of a successful mission-completion response. -/
structure CompleteMissionData where
  mission : Mission
  completed : Bool
deriving DecidableEq, Repr

/-- One execution of `completeMission()` against an observed completion
response and, in its confirmed branch, the response of the chained
`updateProgress()` refresh.  Without a current mission it returns at once.
It enters loading mode and requests finalization: when the backend confirms
completion it adopts the returned mission, clears the current problem, and
awaits a progress refresh; when the backend answers success with
`completed = false` it records the mission-not-finished error and rejects;
when the envelope is not a success-with-data the source has no else branch,
so nothing further happens — loading mode is still on and no error is
recorded; a thrown request records the error and rejects. -/
def completeMissionStep (resp : Outcome CompleteMissionData)
    (progressResp : Outcome MissionProgress) (s : MissionState) : MStep :=
  match s.currentMission with
  | none => { state := s, calls := [], thrown := none }
  | some mission =>
      let s0 := { s with isLoading := true, error := none }
      match resp with
      | .envelope true _ (some d) =>
          if d.completed then
            let s1 := { s0 with currentMission := some d.mission,
                                currentProblem := none,
                                isLoading := false }
            let up := updateProgressStep progressResp s1
            { state := up.state,
              calls := .completeMission mission.id :: up.calls,
              thrown := none }
          else
            { state := { s0 with isLoading := false,
                                 error := some ⟨"아직 완료되지 않은 문제가 있습니다.", none⟩ },
              calls := [.completeMission mission.id],
              thrown := some "아직 완료되지 않은 문제가 있습니다." }
      | .envelope _ _ _ =>
          { state := s0, calls := [.completeMission mission.id], thrown := none }
      | .thrown message =>
          { state := { s0 with isLoading := false, error := some ⟨message, none⟩ },
            calls := [.completeMission mission.id], thrown := some message }

/-- `startTimer()`: record the wall-clock start instant. -/
def startTimer (now : Int) (s : MissionState) : MissionState :=
  { s with startTime := some now }

/-- `stopTimer()`: when a start instant is recorded, accumulate the whole
seconds elapsed since it (floored millisecond difference over 1000) and
clear the start instant; otherwise do nothing. -/
def stopTimer (now : Int) (s : MissionState) : MissionState :=
  match s.startTime with
  | some st =>
      { s with timeSpent := s.timeSpent + (now - st).fdiv 1000,
               startTime := none }
  | none => s

/-- `resetTimer()`: zero the accumulator and clear the start instant. -/
def resetTimer (s : MissionState) : MissionState :=
  { s with timeSpent := 0, startTime := none }

/-- `getTimeSpent()`: the accumulated total plus the whole seconds of any
currently-running interval — a pure read, no state change. -/
def getTimeSpent (now : Int) (s : MissionState) : Int :=
  match s.startTime with
  | some st => s.timeSpent + (now - st).fdiv 1000
  | none => s.timeSpent

/-- Claim C5: `fetchCurrentMission` populates mission, current problem and
progress from a success response with data; a successful response without
data — the backend signal for no active mission, which the API client does
not turn into an exception — clears mission, problem and progress without
recording an error; a transport or server failure (a thrown request, since
non-2xx responses throw in the API client) records the error and leaves the
previously held mission, problem and progress untouched. -/
theorem C5_fetchCurrentMission (s : MissionState) :
    (∀ (msg : String) (d : CurrentMissionData),
        (fetchCurrentMissionStep (.envelope true msg (some d)) s).state.currentMission =
          some d.mission
        ∧ (fetchCurrentMissionStep (.envelope true msg (some d)) s).state.currentProblem =
          some d.current_problem
        ∧ (fetchCurrentMissionStep (.envelope true msg (some d)) s).state.missionProgress =
          some d.progress
        ∧ (fetchCurrentMissionStep (.envelope true msg (some d)) s).state.error = none
        ∧ (fetchCurrentMissionStep (.envelope true msg (some d)) s).thrown = none)
    ∧ (∀ (success : Bool) (msg : String),
        (fetchCurrentMissionStep (.envelope success msg none) s).state.currentMission = none
        ∧ (fetchCurrentMissionStep (.envelope success msg none) s).state.currentProblem = none
        ∧ (fetchCurrentMissionStep (.envelope success msg none) s).state.missionProgress = none
        ∧ (fetchCurrentMissionStep (.envelope success msg none) s).state.error = none
        ∧ (fetchCurrentMissionStep (.envelope success msg none) s).thrown = none)
    ∧ (∀ (msg : String) (d : CurrentMissionData),
        (fetchCurrentMissionStep (.envelope false msg (some d)) s).state.currentMission = none
        ∧ (fetchCurrentMissionStep (.envelope false msg (some d)) s).state.currentProblem = none
        ∧ (fetchCurrentMissionStep (.envelope false msg (some d)) s).state.missionProgress = none
        ∧ (fetchCurrentMissionStep (.envelope false msg (some d)) s).state.error = none
        ∧ (fetchCurrentMissionStep (.envelope false msg (some d)) s).thrown = none)
    ∧ (∀ msg : String,
        (fetchCurrentMissionStep (.thrown msg) s).state.currentMission = s.currentMission
        ∧ (fetchCurrentMissionStep (.thrown msg) s).state.currentProblem = s.currentProblem
        ∧ (fetchCurrentMissionStep (.thrown msg) s).state.missionProgress = s.missionProgress
        ∧ (fetchCurrentMissionStep (.thrown msg) s).state.error = some ⟨msg, none⟩
        ∧ (fetchCurrentMissionStep (.thrown msg) s).thrown = some msg
        ∧ (fetchCurrentMissionStep (.thrown msg) s).state.isLoading = false) := by
  refine ⟨fun msg d => ⟨rfl, rfl, rfl, rfl, rfl⟩, ?_,
    fun msg d => ⟨rfl, rfl, rfl, rfl, rfl⟩,
    fun msg => ⟨rfl, rfl, rfl, rfl, rfl, rfl⟩⟩
  intro success msg
  cases success <;> exact ⟨rfl, rfl, rfl, rfl, rfl⟩

/-- Claim C8: for every mission type (daily, review, challenge or
assessment), `startNewMission` on a success response synthesizes the initial
progress snapshot directly from that response — the returned mission id and
problem counts, the first problem as current problem, progress percentage
0 — issues only the single creation request (no further round-trip), and
enters the active-mission state. -/
theorem C8_startNewMission (missionType : MissionType) (msg : String)
    (d : StartMissionData) (s : MissionState) :
    (startNewMissionStep missionType (.envelope true msg (some d)) s).state.currentMission =
      some d.mission
    ∧ (startNewMissionStep missionType (.envelope true msg (some d)) s).state.currentProblem =
      some d.first_problem
    ∧ (startNewMissionStep missionType (.envelope true msg (some d)) s).state.missionProgress =
      some { mission_id := d.mission.id
             total_problems := d.mission.total_problems
             completed_problems := d.mission.completed_problems
             current_problem := some d.first_problem
             progress_percentage := 0
             estimated_remaining_time := none }
    ∧ (startNewMissionStep missionType (.envelope true msg (some d)) s).calls =
      [.startMission missionType]
    ∧ (startNewMissionStep missionType (.envelope true msg (some d)) s).state.isLoading = false
    ∧ (startNewMissionStep missionType (.envelope true msg (some d)) s).thrown = none :=
  ⟨rfl, rfl, rfl, rfl, rfl, rfl⟩

/-- Claim C9: with no current mission held, `getCurrentProblem`,
`updateProgress` and `completeMission` each return immediately: no network
call, no state change, no error, no rejection — `completeMission` in
particular silently does nothing. -/
theorem C9_null_mission_guards (s : MissionState) (h : s.currentMission = none)
    (presp : Outcome Problem) (uresp : Outcome MissionProgress)
    (cresp : Outcome CompleteMissionData) (cpresp : Outcome MissionProgress) :
    getCurrentProblemStep presp s = ⟨s, [], none⟩
    ∧ updateProgressStep uresp s = ⟨s, [], none⟩
    ∧ completeMissionStep cresp cpresp s = ⟨s, [], none⟩ := by
  refine ⟨?_, ?_, ?_⟩ <;>
    simp [getCurrentProblemStep, updateProgressStep, completeMissionStep, h]

/-- Witness for C9 at concrete inputs. -/
theorem C9_null_mission_guards_witness :
    getCurrentProblemStep (Outcome.thrown "err") initialMissionState =
      ⟨initialMissionState, [], none⟩
    ∧ updateProgressStep (Outcome.thrown "err") initialMissionState =
      ⟨initialMissionState, [], none⟩
    ∧ completeMissionStep (Outcome.thrown "err") (Outcome.thrown "err")
        initialMissionState =
      ⟨initialMissionState, [], none⟩ :=
  C9_null_mission_guards initialMissionState rfl
    (Outcome.thrown "err") (Outcome.thrown "err")
    (Outcome.thrown "err") (Outcome.thrown "err")

/-- Claim C6: `stopTimer` adds the whole seconds elapsed since the recorded
start instant to the accumulated total and clears the start instant, and is
a no-op when no start instant is recorded; `getTimeSpent` is a pure read (a
function of the state, embedded without any state output) that returns the
accumulated total plus any currently-running interval — exactly the total a
stop at the same instant would leave — is non-decreasing in the clock while
the timer runs, and is stable once stopped; `resetTimer` zeroes the
accumulator so a subsequent read returns 0. -/
theorem C6_timer :
    (∀ (s : MissionState) (now st : Int), s.startTime = some st →
        stopTimer now s =
          { s with timeSpent := s.timeSpent + (now - st).fdiv 1000,
                   startTime := none })
    ∧ (∀ (s : MissionState) (now : Int), s.startTime = none →
        stopTimer now s = s)
    ∧ (∀ (s : MissionState) (now : Int),
        getTimeSpent now s = (stopTimer now s).timeSpent)
    ∧ (∀ (s : MissionState) (st n1 n2 : Int), s.startTime = some st →
        st ≤ n1 → n1 ≤ n2 → getTimeSpent n1 s ≤ getTimeSpent n2 s)
    ∧ (∀ (s : MissionState) (n1 n2 : Int), s.startTime = none →
        getTimeSpent n1 s = getTimeSpent n2 s)
    ∧ (∀ (s : MissionState) (now : Int), getTimeSpent now (resetTimer s) = 0) := by
  refine ⟨?_, ?_, ?_, ?_, ?_, ?_⟩
  · intro s now st h; simp [stopTimer, h]
  · intro s now h; simp [stopTimer, h]
  · intro s now
    cases h : s.startTime <;> simp [getTimeSpent, stopTimer, h]
  · intro s st n1 n2 h h1 h2
    simp only [getTimeSpent, h]
    have e1 : (n1 - st).fdiv 1000 = (n1 - st) / 1000 :=
      Int.fdiv_eq_ediv _ (by norm_num)
    have e2 : (n2 - st).fdiv 1000 = (n2 - st) / 1000 :=
      Int.fdiv_eq_ediv _ (by norm_num)
    rw [e1, e2]
    have := Int.ediv_le_ediv (by norm_num : (0 : Int) < 1000)
      (by omega : n1 - st ≤ n2 - st)
    omega
  · intro s n1 n2 h; simp [getTimeSpent, h]
  · intro s now; simp [getTimeSpent, resetTimer]

/-- Witness for C6 at concrete inputs: starting at instant 2000 ms, a stop
at 3500 ms accumulates 1 whole second; reads at 3000 ms and 5500 ms are
ordered; a stop with no timer running changes nothing; a read after a reset
is 0. -/
theorem C6_timer_witness :
    stopTimer 3500 { initialMissionState with startTime := some 2000 } =
      { initialMissionState with timeSpent := 1, startTime := none }
    ∧ getTimeSpent 3000 { initialMissionState with startTime := some 2000 } ≤
      getTimeSpent 5500 { initialMissionState with startTime := some 2000 }
    ∧ stopTimer 9999 initialMissionState = initialMissionState
    ∧ getTimeSpent 1234 (resetTimer initialMissionState) = 0 := by
  refine ⟨?_, ?_, ?_, ?_⟩
  · rw [C6_timer.1 { initialMissionState with startTime := some 2000 } 3500 2000 rfl]
    decide
  · exact C6_timer.2.2.2.1 { initialMissionState with startTime := some 2000 }
      2000 3000 5500 rfl (by norm_num) (by norm_num)
  · exact C6_timer.2.1 initialMissionState 9999 rfl
  · exact C6_timer.2.2.2.2.2 initialMissionState 1234

/-- Claim C7, checked against the code: with an active mission,
`completeMission` on a confirmed completion adopts the returned mission,
clears the current problem and triggers the progress refresh (whose
re-fetch it chains); on a success envelope with `completed = false` it
fails with the fixed mission-not-finished error; BUT a `success:false`
envelope (or a success envelope without data) is silently ignored because
the source has no else branch for it: no error is recorded, no rejection
happens, and `isLoading` is left stuck at true — contradicting the claim
and the documented envelope failure rule. -/
theorem C7_completeMission_envelope_bug :
    (∀ (success : Bool) (msg : String) (presp : Outcome MissionProgress)
        (s : MissionState) (m : Mission),
        (completeMissionStep (.envelope success msg none) presp
          { s with currentMission := some m }).state.error = none
        ∧ (completeMissionStep (.envelope success msg none) presp
          { s with currentMission := some m }).thrown = none
        ∧ (completeMissionStep (.envelope success msg none) presp
          { s with currentMission := some m }).state.isLoading = true)
    ∧ (∀ (msg : String) (d : CompleteMissionData) (presp : Outcome MissionProgress)
        (s : MissionState) (m : Mission),
        (completeMissionStep (.envelope false msg (some d)) presp
          { s with currentMission := some m }).state.error = none
        ∧ (completeMissionStep (.envelope false msg (some d)) presp
          { s with currentMission := some m }).thrown = none
        ∧ (completeMissionStep (.envelope false msg (some d)) presp
          { s with currentMission := some m }).state.isLoading = true)
    ∧ (∀ (msg : String) (m2 : Mission) (presp : Outcome MissionProgress)
        (s : MissionState) (m : Mission),
        (completeMissionStep (.envelope true msg (some ⟨m2, false⟩)) presp
          { s with currentMission := some m }).state.error =
          some ⟨"아직 완료되지 않은 문제가 있습니다.", none⟩
        ∧ (completeMissionStep (.envelope true msg (some ⟨m2, false⟩)) presp
          { s with currentMission := some m }).thrown =
          some "아직 완료되지 않은 문제가 있습니다.")
    ∧ (∀ (msg : String) (m2 : Mission) (presp : Outcome MissionProgress)
        (s : MissionState) (m : Mission),
        (completeMissionStep (.envelope true msg (some ⟨m2, true⟩)) presp
          { s with currentMission := some m }).calls =
          [.completeMission m.id, .getMissionProgress m2.id]
        ∧ (completeMissionStep (.envelope true msg (some ⟨m2, true⟩)) presp
          { s with currentMission := some m }).thrown = none
        ∧ (completeMissionStep (.envelope true msg (some ⟨m2, true⟩)) presp
          { s with currentMission := some m }).state.currentMission = some m2
        ∧ (completeMissionStep (.envelope true msg (some ⟨m2, true⟩))
            (Outcome.thrown "refresh failed")
            { s with currentMission := some m }).state.currentProblem = none) := by
  refine ⟨?_, ?_, ?_, ?_⟩
  · intro success msg presp s m
    cases success <;> exact ⟨rfl, rfl, rfl⟩
  · intro msg d presp s m
    exact ⟨rfl, rfl, rfl⟩
  · intro msg m2 presp s m
    exact ⟨rfl, rfl⟩
  · intro msg m2 presp s m
    refine ⟨?_, ?_, ?_, ?_⟩ <;>
      cases presp with
      | envelope success pmsg pdata =>
          cases success <;> cases pdata <;>
            first
              | rfl
              | (rename_i pd; cases hp : pd.current_problem <;>
                  simp [completeMissionStep, updateProgressStep, hp])
      | thrown pmsg => rfl
